import Mathlib

/-
Verification development for the nsls2api synchronization/reconciliation engine.

Shallow embedding of:
  src/nsls2api/services/pass_service.py
  src/nsls2api/services/sync_service.py

The MongoDB store (beanie documents for Proposal, Cycle, ProposalType) is modelled
as an explicit state `DBState`; each stateful operation takes and returns the state.
Remote collaborators (the PASS web service, the BNL-people identity service,
facility_service, beamline_service, proposal_service) are modelled as an
environment record `Env`; collaborators whose code is not under src are modelled
from the spec, and each such definition says so in its doc comment.
Python exceptions are modelled by the `PyError` type: a function that can raise
returns a `SyncResult` carrying `err = some e` (the raised exception, with the
database state at the moment of the raise) or `err = none` on normal return.
Log output (logger.info / logger.debug) is not modelled except in
`update_proposals_with_cycle`, where the warning log is part of a claim.
-/

namespace Nsls2api

/-- Python exceptions that the embedded code can raise. -/
inductive PyError where
  | typeError
  | attributeError
  | httpStatusError
  | lookupError (msg : String)
  | wrapped (msg : String)
deriving Repr, DecidableEq

/-- Outcome of one remote HTTP fetch followed by pydantic validation:
the transport can fail (`fetchError`, any exception from _call_async_webservice),
the payload can fail model validation (`invalid`, pydantic ValidationError),
or a well-formed record is produced. -/
inductive RawFetch (α : Type) where
  | fetchError
  | invalid
  | ok (value : α)
deriving Repr, DecidableEq

/-- A person record as delivered by PASS (fields used by sync_service). -/
structure PassPerson where
  First_Name : String
  Last_Name : String
  Email : String
  BNL_ID : String
deriving Repr, DecidableEq

/-- A resource (beamline) reference as delivered by PASS. -/
structure PassResource where
  ID : Nat
deriving Repr, DecidableEq

/-- A safety form as delivered by PASS. -/
structure PassSaf where
  SAF_ID : Nat
  Status : String
  Resources : List PassResource
deriving Repr, DecidableEq

/-- A proposal record as delivered by PASS (fields used by sync_service). -/
structure PassProposal where
  Proposal_ID : Nat
  Title : String
  Proposal_Type_ID : Nat
  Proposal_Type_Description : String
  PI : Option PassPerson
  Experimenters : List PassPerson
  Resources : List PassResource
deriving Repr, DecidableEq

/-- A cycle record as delivered by PASS (fields used by sync_service). -/
structure PassCycle where
  Name : String
  Active : Bool
  User_Facility_ID : String
  Year : Nat
  Start_Date : String
  End_Date : String
  Description : String
  ID : Nat
deriving Repr, DecidableEq

/-- A proposal-type record as delivered by PASS (fields used by sync_service). -/
structure PassProposalType where
  ID : Nat
  Code : String
  Description : String
  User_Facility_ID : String
deriving Repr, DecidableEq

/-- A local facility record (facility_service result; fields used by sync_service). -/
structure Facility where
  facility_id : String
  name : String
deriving Repr, DecidableEq

/-- Stored SafetyForm sub-document (models.proposals.SafetyForm). -/
structure SafetyForm where
  saf_id : String
  status : String
  instruments : List String
deriving Repr, DecidableEq

/-- Stored User sub-document (models.proposals.User). -/
structure User where
  first_name : String
  last_name : String
  email : String
  bnl_id : String
  username : Option String
  is_pi : Bool
deriving Repr, DecidableEq

/-- Stored Proposal document (models.proposals.Proposal).
`cycles` defaults to the empty set on construction; timestamps are Nat ticks. -/
structure Proposal where
  proposal_id : String
  title : String
  data_session : String
  pass_type_id : String
  type : String
  instruments : List String
  safs : List SafetyForm
  users : List User
  cycles : List String
  last_updated : Nat
deriving Repr, DecidableEq

/-- Stored Cycle document (models.cycles.Cycle).
Per the spec, a freshly inserted cycle has an empty proposal set. -/
structure Cycle where
  name : String
  accepting_proposals : Bool
  facility : String
  year : String
  start_date : String
  end_date : String
  pass_description : String
  pass_id : String
  proposals : List String
  last_updated : Nat
deriving Repr, DecidableEq

/-- Stored ProposalType document (models.proposal_types.ProposalType). -/
structure ProposalType where
  code : String
  facility_id : String
  pass_id : String
  description : String
  pass_description : String
  last_updated : Nat
deriving Repr, DecidableEq

/-- The local record store: the three collections touched by sync_service. -/
structure DBState where
  proposals : List Proposal
  cycles : List Cycle
  proposal_types : List ProposalType
deriving Repr, DecidableEq

/-- Result of a stateful operation: `err = some e` means the Python code raised
exception `e`, with `db` the store contents at that moment (MongoDB writes already
performed are not rolled back by an exception). -/
structure SyncResult where
  err : Option PyError
  db : DBState
deriving Repr, DecidableEq

/-- Decidable equality for Except results, so concrete runs can be checked. -/
instance exceptDecEq {ε α : Type} [DecidableEq ε] [DecidableEq α] :
    DecidableEq (Except ε α) := fun a b =>
  match a, b with
  | Except.ok x, Except.ok y =>
      if h : x = y then isTrue (by rw [h]) else isFalse (fun hc => h (by cases hc; rfl))
  | Except.error x, Except.error y =>
      if h : x = y then isTrue (by rw [h]) else isFalse (fun hc => h (by cases hc; rfl))
  | Except.ok _, Except.error _ => isFalse (fun hc => Except.noConfusion hc)
  | Except.error _, Except.ok _ => isFalse (fun hc => Except.noConfusion hc)

/-- Models Python str.casefold on the identifiers compared here (ASCII case
folding, applied character-wise; written as a structural map over the character
list so that concrete runs evaluate inside the kernel). -/
def casefold (s : String) : String := String.mk (s.data.map Char.toLower)

/-- Mongo AddToSet update operator: append the element unless already present. -/
def addToSet (l : List String) (x : String) : List String :=
  if x ∈ l then l else l ++ [x]

/-- External collaborators, as seen by one synchronization run.
Collaborator modules not under src (facility_service, beamline_service,
bnlpeople_service, proposal_service.fetch_proposals_for_cycle, helpers) are
modelled from the spec, as noted per field. `now` is the clock value returned
by datetime.datetime.now() during the run. -/
structure Env where
  /-- Raw result of the GetProposal remote call plus validation (pass_service.get_proposal body). -/
  rawProposal : Nat → RawFetch PassProposal
  /-- Result of pass_service.get_saf_from_proposal (raw web-service records). -/
  passSafs : Nat → List PassSaf
  /-- Modelled from the spec: beamline_service.beamline_by_pass_id is not under src.
  The Identity Resolver maps an external resource id to a local beamline, returning
  its name, or none when unresolvable (sync_service tests the result for truthiness). -/
  beamlineByPassId : Nat → Option String
  /-- Modelled from the spec: bnlpeople_service.get_username_by_id is not under src.
  The external identity lookup returns a username or raises HTTPStatusError. -/
  usernameById : String → Except Unit String
  /-- Modelled from the spec: facility_service.facility_by_pass_id is not under src.
  Per spec section 7, an unresolvable facility is a LookupError. -/
  facilityByPassId : String → Except String Facility
  /-- Modelled from the spec: proposal_service.fetch_proposals_for_cycle is not under
  src. Returns the proposal ids associated with a cycle; ids are numeric. -/
  proposalsForCycle : String → List Nat
  /-- Proposal ids a hypothetical get_proposals_allocated_by_cycle would return
  (the name is absent from pass_service; see syncCyclesLoop). -/
  proposalsAllocatedByCycle : String → List Nat
  /-- Cycle list the GetCycles remote call would deliver. -/
  passCycles : List PassCycle
  /-- Proposal-type list the GetProposalTypes remote call would deliver. -/
  passProposalTypes : List PassProposalType
  /-- Clock value for datetime.datetime.now(). -/
  now : Nat

/-- Module-level names defined in pass_service.py (imports, assignments and defs).
Notably there is no PassException and no get_proposals_allocated_by_cycle. -/
def pass_service_names : List String :=
  ["ValidationError", "config", "logger", "_call_async_webservice",
   "PassCycle", "PassProposal", "PassProposalType",
   "settings", "api_key", "base_url",
   "get_proposal", "get_proposal_types", "get_saf_from_proposal",
   "get_commissioning_proposals_by_year", "get_pass_resources",
   "get_cycles", "get_proposals_allocated", "get_proposals_by_person"]

/-- Parameter count of pass_service.get_cycles: `async def get_cycles() -> PassCycle`. -/
def get_cycles_paramCount : Nat := 0

/-- Parameter count of pass_service.get_proposal_types:
`async def get_proposal_types() -> PassProposalType`. -/
def get_proposal_types_paramCount : Nat := 0

/-- Python call semantics for arity: calling a function whose signature declares
`paramCount` positional parameters with `argCount` positional arguments raises
TypeError unless the counts agree. -/
def pycall (paramCount argCount : Nat) : Except PyError Unit :=
  if argCount = paramCount then Except.ok () else Except.error PyError.typeError

/-- pass_service.get_proposal: fetches and validates one proposal. Both the
`except ValidationError` branch and the catch-all `except Exception` branch log
and set `proposal = None`, which is then returned: the function never raises. -/
def get_proposal (env : Env) (proposal_id : Nat) : Option PassProposal :=
  match env.rawProposal proposal_id with
  | RawFetch.fetchError => none
  | RawFetch.invalid => none
  | RawFetch.ok p => some p

/-- Proposal.find_one(proposal_id == key) over the store. -/
def findProposal (s : DBState) (key : String) : Option Proposal :=
  s.proposals.find? (fun pr => pr.proposal_id == key)

/-- Cycle.find_one(name == key) over the store. -/
def findCycle (s : DBState) (key : String) : Option Cycle :=
  s.cycles.find? (fun cy => cy.name == key)

/-- Beanie upsert on the proposal collection: if a document with the key exists,
apply the Set-operator field updates to it; otherwise insert `onInsert`. -/
def upsertProposal (s : DBState) (key : String) (setFields : Proposal → Proposal)
    (onInsert : Proposal) : DBState :=
  if s.proposals.any (fun pr => pr.proposal_id == key) then
    { s with proposals := (s.proposals.map
        (fun pr => if pr.proposal_id == key then setFields pr else pr)) }
  else
    { s with proposals := s.proposals ++ [onInsert] }

/-- Beanie upsert on the cycle collection keyed by name
(sync_service.worker_synchronize_cycles_from_pass lines 55-70): the Set operator
overwrites the listed scalar fields and leaves `proposals` untouched; on insert a
fresh document with an empty proposal set is created. -/
def upsertCycle (s : DBState) (pc : PassCycle) (facility_id : String) (now : Nat) : DBState :=
  if s.cycles.any (fun cy => cy.name == pc.Name) then
    { s with cycles := s.cycles.map (fun cy =>
        if cy.name == pc.Name then
          { cy with accepting_proposals := pc.Active, facility := facility_id,
                    pass_description := pc.Description, pass_id := toString pc.ID,
                    year := toString pc.Year, start_date := pc.Start_Date,
                    end_date := pc.End_Date, last_updated := now }
        else cy) }
  else
    { s with cycles := s.cycles ++
        [{ name := pc.Name, accepting_proposals := pc.Active, facility := facility_id,
           year := toString pc.Year, start_date := pc.Start_Date, end_date := pc.End_Date,
           pass_description := pc.Description, pass_id := toString pc.ID,
           proposals := [], last_updated := now }] }

/-- updated_cycle.update(AddToSet(Cycle.proposals: pid)) followed by save()
(sync_service lines 75-79). -/
def addProposalToCycle (s : DBState) (cycleName : String) (pidStr : String) (now : Nat) : DBState :=
  { s with cycles := s.cycles.map (fun cy =>
      if cy.name == cycleName then
        { cy with proposals := addToSet cy.proposals pidStr, last_updated := now }
      else cy) }

/-- Beanie upsert on the proposal-type collection keyed by pass_id
(sync_service.worker_synchronize_proposal_types_from_pass lines 116-130). -/
def upsertProposalType (s : DBState) (pt : PassProposalType) (fac : Facility) (now : Nat) : DBState :=
  if s.proposal_types.any (fun t => t.pass_id == toString pt.ID) then
    { s with proposal_types := s.proposal_types.map (fun t =>
        if t.pass_id == toString pt.ID then
          { t with code := pt.Code, pass_description := pt.Description,
                   description := pt.Description, facility_id := fac.facility_id,
                   last_updated := now }
        else t) }
  else
    { s with proposal_types := s.proposal_types ++
        [{ code := pt.Code, facility_id := fac.facility_id, pass_id := toString pt.ID,
           description := pt.Description, pass_description := pt.Description,
           last_updated := now }] }

/-- The guarded username lookup of the experimenter loop (sync_service lines
186-191): try get_username_by_id, and on HTTPStatusError log and use None. -/
def softUsername (env : Env) (bnl_id : String) : Option String :=
  match env.usernameById bnl_id with
  | Except.error _ => none
  | Except.ok u => some u

/-- The PI test of sync_service line 183:
str(pass_proposal.PI.BNL_ID).casefold() == str(user.BNL_ID).casefold(). -/
def matchesPI (pi : PassPerson) (user : PassPerson) : Bool :=
  casefold (toString pi.BNL_ID) == casefold (toString user.BNL_ID)

/-- The User document built for one experimenter (sync_service lines 193-200). -/
def expUser (env : Env) (pi : PassPerson) (user : PassPerson) : User :=
  { first_name := user.First_Name, last_name := user.Last_Name,
    email := user.Email, bnl_id := user.BNL_ID,
    username := softUsername env user.BNL_ID, is_pi := matchesPI pi user }

/-- One iteration of the experimenter loop (sync_service lines 175-201),
accumulating (pi_found_in_experimenters, user_list). When the proposal has no PI
the iteration logs a warning and continues, appending nothing. -/
def experimenterStep (env : Env) (piOpt : Option PassPerson)
    (acc : Bool × List User) (user : PassPerson) : Bool × List User :=
  match piOpt with
  | none => acc
  | some pi => (acc.1 || matchesPI pi user, acc.2 ++ [expUser env pi user])

/-- The SAF block of synchronize_proposal_from_pass (lines 151-164): for each
safety form, resolve each resource id; unresolved beamlines are dropped by the
`if beamline:` test. -/
def resolveSafForms (env : Env) (proposal_id : Nat) : List SafetyForm :=
  (env.passSafs proposal_id).map (fun saf =>
    { saf_id := toString saf.SAF_ID, status := saf.Status,
      instruments := saf.Resources.filterMap (fun r => env.beamlineByPassId r.ID) })

/-- The User document synthesized for a PI not found among the experimenters
(sync_service lines 209-216). -/
def piEntry (pi : PassPerson) (uname : String) : User :=
  { first_name := pi.First_Name, last_name := pi.Last_Name,
    email := pi.Email, bnl_id := pi.BNL_ID,
    username := some uname, is_pi := true }

/-- The user block of synchronize_proposal_from_pass (lines 172-217): the
experimenter loop, then the explicit-PI append guarded by
`if pass_proposal.PI and not pi_found_in_experimenters`. The PI-append username
lookup (lines 206-208) is NOT wrapped in try/except, so an HTTPStatusError there
propagates. -/
def resolveUserList (env : Env) (p : PassProposal) : Except PyError (List User) :=
  let r := p.Experimenters.foldl (experimenterStep env p.PI) (false, [])
  match p.PI with
  | some pi =>
    if r.1 then Except.ok r.2
    else
      match env.usernameById pi.BNL_ID with
      | Except.error _ => Except.error PyError.httpStatusError
      | Except.ok uname => Except.ok (r.2 ++ [piEntry pi uname])
  | none => Except.ok r.2

/-- Modelled from the spec: proposal_service.generate_data_session_for_proposal is
an external collaborator not under src; the spec says it derives a data-session
label deterministically from the proposal id (pure, no side effects). The exact
format does not matter to any claim. -/
def generate_data_session_for_proposal (proposal_id : Nat) : String :=
  "pass-" ++ toString proposal_id

/-- The proposal's own instrument list (sync_service lines 166-170), skip-unknown. -/
def resolveBeamlines (env : Env) (p : PassProposal) : List String :=
  p.Resources.filterMap (fun r => env.beamlineByPassId r.ID)

/-- The Set-operator field updates of the proposal upsert (sync_service lines
234-245): title, data_session, pass_type_id, type, instruments, safs, users and
last_updated are overwritten; no other field is named, so cycles and proposal_id
are untouched. -/
def proposalSetFields (env : Env) (p : PassProposal) (proposal_id : Nat)
    (user_list : List User) (pr : Proposal) : Proposal :=
  { pr with
    title := p.Title,
    data_session := generate_data_session_for_proposal proposal_id,
    pass_type_id := toString p.Proposal_Type_ID,
    type := p.Proposal_Type_Description,
    instruments := resolveBeamlines env p,
    safs := resolveSafForms env proposal_id,
    users := user_list,
    last_updated := env.now }

/-- The on_insert document of the proposal upsert (sync_service lines 221-231,
246): a fresh Proposal whose cycles set takes the model default, the empty set. -/
def proposalOnInsert (env : Env) (p : PassProposal) (proposal_id : Nat)
    (user_list : List User) : Proposal :=
  { proposal_id := toString p.Proposal_ID,
    title := p.Title,
    data_session := generate_data_session_for_proposal proposal_id,
    pass_type_id := toString p.Proposal_Type_ID,
    type := p.Proposal_Type_Description,
    instruments := resolveBeamlines env p,
    safs := resolveSafForms env proposal_id,
    users := user_list,
    cycles := [],
    last_updated := env.now }

/-- sync_service.synchronize_proposal_from_pass (lines 139-249).
get_proposal never raises (it swallows failures and returns None), so the
`except pass_service.PassException` at line 146 is dead code and is not modelled.
When get_proposal returned None, the first attribute access on it
(`pass_proposal.Resources`, line 167) raises AttributeError; the SAF fetch at
line 152 has already happened by then but has written nothing to the store. -/
def synchronize_proposal_from_pass (env : Env) (s : DBState) (proposal_id : Nat) : SyncResult :=
  match get_proposal env proposal_id with
  | none => { err := some PyError.attributeError, db := s }
  | some p =>
    match resolveUserList env p with
    | Except.error e => { err := some e, db := s }
    | Except.ok user_list =>
      { err := none,
        db := (upsertProposal s (toString proposal_id)
                (proposalSetFields env p proposal_id user_list)
                (proposalOnInsert env p proposal_id user_list)) }

/-- The per-cycle loop of worker_synchronize_cycles_from_pass (lines 37-79).
Resolving the facility raises on failure (fatal, per spec section 4.2). After the
upsert, line 73 evaluates `pass_service.get_proposals_allocated_by_cycle`, a name
the module does not define, raising AttributeError; the branch that would run if
the name existed (fetch the allocation list and AddToSet each proposal id) is kept
for reference. -/
def syncCyclesLoop (env : Env) (s : DBState) : List PassCycle → SyncResult
  | [] => { err := none, db := s }
  | pc :: rest =>
    match env.facilityByPassId pc.User_Facility_ID with
    | Except.error msg => { err := some (PyError.lookupError msg), db := s }
    | Except.ok fac =>
      let s1 := upsertCycle s pc fac.facility_id env.now
      if pass_service_names.contains "get_proposals_allocated_by_cycle" then
        let s2 := (env.proposalsAllocatedByCycle pc.Name).foldl
          (fun st pid => addProposalToCycle st pc.Name (toString pid) env.now) s1
        syncCyclesLoop env s2 rest
      else { err := some PyError.attributeError, db := s1 }

/-- sync_service.worker_synchronize_cycles_from_pass (lines 20-84).
Line 31 calls pass_service.get_cycles(facility_name): one positional argument to a
zero-parameter function, raising TypeError. While handling it, the `except
pass_service.PassException` clause (line 32) resolves an attribute the module does
not define, raising AttributeError. Either way no invocation reaches the loop. -/
def worker_synchronize_cycles_from_pass (env : Env) (s : DBState) : SyncResult :=
  match pycall get_cycles_paramCount 1 with
  | Except.error _ =>
    if pass_service_names.contains "PassException" then
      { err := some (PyError.wrapped "Error retrieving cycle information from PASS"), db := s }
    else { err := some PyError.attributeError, db := s }
  | Except.ok _ => syncCyclesLoop env s env.passCycles

/-- The per-item loop of worker_synchronize_proposal_types_from_pass (lines
103-130). The facility resolution at line 104 has no surrounding try/except, so a
lookup failure propagates and aborts the remaining items. -/
def syncProposalTypesLoop (env : Env) (s : DBState) : List PassProposalType → SyncResult
  | [] => { err := none, db := s }
  | pt :: rest =>
    match env.facilityByPassId pt.User_Facility_ID with
    | Except.error msg => { err := some (PyError.lookupError msg), db := s }
    | Except.ok fac => syncProposalTypesLoop env (upsertProposalType s pt fac env.now) rest

/-- sync_service.worker_synchronize_proposal_types_from_pass (lines 87-136).
Line 93 calls pass_service.get_proposal_types(facility_name): one positional
argument to a zero-parameter function, raising TypeError; the except clause at
line 96 then raises AttributeError resolving pass_service.PassException. -/
def worker_synchronize_proposal_types_from_pass (env : Env) (s : DBState) : SyncResult :=
  match pycall get_proposal_types_paramCount 1 with
  | Except.error _ =>
    if pass_service_names.contains "PassException" then
      { err := some (PyError.wrapped "Error retrieving proposal types from PASS"), db := s }
    else { err := some PyError.attributeError, db := s }
  | Except.ok _ => syncProposalTypesLoop env s env.passProposalTypes

/-- Modelled from the spec: proposal_service.proposal_by_id is not under src.
Per spec sections 4.5 and 7, looking up a missing proposal raises LookupError,
which update_proposals_with_cycle catches. -/
def proposal_by_id (s : DBState) (pid : Nat) : Except String Proposal :=
  match findProposal s (toString pid) with
  | some p => Except.ok p
  | none => Except.error ("Proposal " ++ toString pid ++ " not found")

/-- The write of one successful linking iteration (lines 269-271): AddToSet the
cycle name onto the looked-up proposal's cycles set and bump last_updated. -/
def linkApply (env : Env) (cycle_name : String) (s : DBState) (pid : Nat) : DBState :=
  { s with proposals := (s.proposals.map (fun pr =>
      if pr.proposal_id == toString pid then
        { pr with cycles := addToSet pr.cycles cycle_name, last_updated := env.now }
      else pr)) }

/-- One iteration of update_proposals_with_cycle (lines 264-273): look up the
proposal, AddToSet the cycle name and save; on LookupError log a warning and
continue. The accumulator carries the store and the warning log. -/
def linkCycleStep (env : Env) (cycle_name : String)
    (acc : DBState × List String) (pid : Nat) : DBState × List String :=
  match proposal_by_id acc.1 pid with
  | Except.ok _ => (linkApply env cycle_name acc.1 pid, acc.2)
  | Except.error msg => (acc.1, acc.2 ++ [msg])

/-- sync_service.update_proposals_with_cycle (lines 252-273). The only exception
the body can raise is the LookupError of the proposal lookup, which is caught, so
the function returns normally on every input; the second component is the warning
log. -/
def update_proposals_with_cycle (env : Env) (s : DBState) (cycle_name : String) :
    DBState × List String :=
  (env.proposalsForCycle cycle_name).foldl (linkCycleStep env cycle_name) (s, [])

/-- Proposal set of the named cycle ([] when the cycle does not exist). -/
def cycleProposalsOf (s : DBState) (name : String) : List String :=
  match findCycle s name with
  | some cy => cy.proposals
  | none => []

/-- Cycle set of the proposal stored under the given key ([] when absent). -/
def proposalCyclesOf (s : DBState) (key : String) : List String :=
  match findProposal s key with
  | some pr => pr.cycles
  | none => []

/-- Empty initial store used by concrete runs. -/
def db0 : DBState := { proposals := [], cycles := [], proposal_types := [] }

/-- Baseline environment for concrete runs; scenarios override individual fields. -/
def baseEnv : Env :=
  { rawProposal := fun _ => RawFetch.fetchError,
    passSafs := fun _ => [],
    beamlineByPassId := fun _ => none,
    usernameById := fun _ => Except.ok "auser",
    facilityByPassId := fun _ => Except.ok { facility_id := "nsls2", name := "NSLS-II" },
    proposalsForCycle := fun _ => [],
    proposalsAllocatedByCycle := fun _ => [],
    passCycles := [],
    passProposalTypes := [],
    now := 17 }

def alice : PassPerson :=
  { First_Name := "Alice", Last_Name := "Aspect", Email := "alice@bnl.gov", BNL_ID := "123" }

def bob : PassPerson :=
  { First_Name := "Bob", Last_Name := "Babbage", Email := "bob@bnl.gov", BNL_ID := "456" }

def carol : PassPerson :=
  { First_Name := "Carol", Last_Name := "Curie", Email := "carol@bnl.gov", BNL_ID := "789" }

/-- Remote proposal whose designated PI (BNL id 123) appears twice in the
experimenter list. -/
def propC1 : PassProposal :=
  { Proposal_ID := 99, Title := "Duplicated PI", Proposal_Type_ID := 1,
    Proposal_Type_Description := "General", PI := some alice,
    Experimenters := [alice, alice], Resources := [] }

def envC1 : Env :=
  { baseEnv with rawProposal := fun pid => if pid = 99 then RawFetch.ok propC1 else RawFetch.fetchError }

/-- Remote proposal whose PI is not in the experimenter list, so the synthesized-PI
branch runs its unguarded username lookup. -/
def propC4 : PassProposal :=
  { Proposal_ID := 7, Title := "PI lookup fails", Proposal_Type_ID := 2,
    Proposal_Type_Description := "General", PI := some bob,
    Experimenters := [], Resources := [] }

def envC4 : Env :=
  { baseEnv with
    rawProposal := fun pid => if pid = 7 then RawFetch.ok propC4 else RawFetch.fetchError,
    usernameById := fun _ => Except.error () }

/-- Remote proposal whose PI is among the experimenters while one experimenter's
username lookup fails. -/
def propC4w : PassProposal :=
  { Proposal_ID := 8, Title := "Experimenter lookup fails", Proposal_Type_ID := 2,
    Proposal_Type_Description := "General", PI := some alice,
    Experimenters := [alice, bob], Resources := [] }

def envC4w : Env :=
  { baseEnv with
    rawProposal := fun pid => if pid = 8 then RawFetch.ok propC4w else RawFetch.fetchError,
    usernameById := fun bid => if bid = "456" then Except.error () else Except.ok "auser" }

def ptA : PassProposalType :=
  { ID := 11, Code := "GU", Description := "General User", User_Facility_ID := "NO-SUCH" }

def ptB : PassProposalType :=
  { ID := 12, Code := "PU", Description := "Partner User", User_Facility_ID := "NSLS-II" }

/-- Environment whose facility resolver only knows the id NSLS-II. -/
def envC5 : Env :=
  { baseEnv with
    facilityByPassId := fun fid =>
      if fid = "NSLS-II" then Except.ok { facility_id := "nsls2", name := "NSLS-II" }
      else Except.error ("Facility " ++ fid ++ " not found") }

/-- Remote proposal with a null PI and two experimenters. -/
def propC6 : PassProposal :=
  { Proposal_ID := 42, Title := "No PI", Proposal_Type_ID := 3,
    Proposal_Type_Description := "Commissioning", PI := none,
    Experimenters := [bob, carol], Resources := [] }

def envC6 : Env :=
  { baseEnv with rawProposal := fun pid => if pid = 42 then RawFetch.ok propC6 else RawFetch.fetchError }

/-- A proposal already in the store, member of cycle 2024-1. -/
def storedProposal : Proposal :=
  { proposal_id := "314", title := "Old title", data_session := "pass-314",
    pass_type_id := "1", type := "General", instruments := [], safs := [],
    users := [], cycles := ["2024-1"], last_updated := 3 }

def db8 : DBState := { proposals := [storedProposal], cycles := [], proposal_types := [] }

def propC8 : PassProposal :=
  { Proposal_ID := 314, Title := "New title", Proposal_Type_ID := 1,
    Proposal_Type_Description := "General", PI := some alice,
    Experimenters := [alice], Resources := [] }

def envC8 : Env :=
  { baseEnv with rawProposal := fun pid => if pid = 314 then RawFetch.ok propC8 else RawFetch.fetchError }

/-- Remote proposal with one safety form referencing one resolvable resource (id 1)
and one unresolvable resource (id 2). -/
def propC9 : PassProposal :=
  { Proposal_ID := 55, Title := "SAF resources", Proposal_Type_ID := 1,
    Proposal_Type_Description := "General", PI := some alice,
    Experimenters := [alice], Resources := [{ ID := 2 }] }

def safC9 : PassSaf :=
  { SAF_ID := 900, Status := "Approved", Resources := [{ ID := 1 }, { ID := 2 }] }

def envC9 : Env :=
  { baseEnv with
    rawProposal := fun pid => if pid = 55 then RawFetch.ok propC9 else RawFetch.fetchError,
    passSafs := fun pid => if pid = 55 then [safC9] else [],
    beamlineByPassId := fun rid => if rid = 1 then some "HXN" else none }

/-- A proposal stored under id 2, not yet linked to any cycle. -/
def storedProposal2 : Proposal :=
  { proposal_id := "2", title := "P2", data_session := "pass-2",
    pass_type_id := "1", type := "General", instruments := [], safs := [],
    users := [], cycles := [], last_updated := 0 }

def db10 : DBState := { proposals := [storedProposal2], cycles := [], proposal_types := [] }

/-- Cycle 2024-1 lists proposal ids 1 (absent from the store) and 2 (present). -/
def envC10 : Env :=
  { baseEnv with proposalsForCycle := fun c => if c = "2024-1" then [1, 2] else [] }

/-- A cycle already in the store with one allocated proposal. -/
def storedCycle : Cycle :=
  { name := "2024-1", accepting_proposals := true, facility := "nsls2",
    year := "2024", start_date := "2024-01-01", end_date := "2024-06-30",
    pass_description := "Cycle 1", pass_id := "77", proposals := ["2"],
    last_updated := 1 }

def db7 : DBState := { proposals := [storedProposal2], cycles := [storedCycle], proposal_types := [] }

/-- find? commutes with mapping a function that does not change the predicate. -/
theorem findq_map_pred_invariant {α : Type} (p : α → Bool) (g : α → α)
    (hg : ∀ a, p (g a) = p a) :
    ∀ l : List α, (l.map g).find? p = (l.find? p).map g := by
  intro l
  induction l with
  | nil => rfl
  | cons a t ih =>
    cases hpa : p a with
    | true => simp [List.find?_cons, hg, hpa]
    | false => simp [List.find?_cons, hg, hpa, ih]

/-- find? over an append when the first part has no hit. -/
theorem findq_append_of_none {α : Type} (p : α → Bool) :
    ∀ (l l2 : List α), l.find? p = none → (l ++ l2).find? p = l2.find? p := by
  intro l
  induction l with
  | nil => intro l2 _; rfl
  | cons a t ih =>
    intro l2 h
    cases hpa : p a with
    | true => simp [List.find?_cons, hpa] at h
    | false =>
      simp only [List.cons_append, List.find?_cons, hpa] at h ⊢
      exact ih l2 h

/-- find? over an append when the first part already has a hit. -/
theorem findq_append_of_some {α : Type} (p : α → Bool) :
    ∀ (l l2 : List α) (a : α), l.find? p = some a → (l ++ l2).find? p = some a := by
  intro l
  induction l with
  | nil => intro l2 a h; cases h
  | cons x t ih =>
    intro l2 a h
    cases hpx : p x with
    | true =>
      simp only [List.find?_cons, hpx] at h
      simp only [List.cons_append, List.find?_cons, hpx]
      exact h
    | false =>
      simp only [List.find?_cons, hpx] at h
      simp only [List.cons_append, List.find?_cons, hpx]
      exact ih l2 a h

/-- Appending never loses an existing element of a Mongo set. -/
theorem subset_addToSet (l : List String) (x : String) : l ⊆ addToSet l x := by
  unfold addToSet
  split
  · exact fun _ h => h
  · exact List.subset_append_left l [x]

/-- AddToSet establishes membership of the added element. -/
theorem mem_addToSet_self (l : List String) (x : String) : x ∈ addToSet l x := by
  unfold addToSet
  split
  · assumption
  · simp

/-- AddToSet is a no-op when the element is already present. -/
theorem addToSet_of_mem {l : List String} {x : String} (h : x ∈ l) : addToSet l x = l := by
  unfold addToSet
  exact if_pos h

/-- With a null PI every experimenter iteration hits the warn-and-continue branch,
leaving the accumulator untouched. -/
theorem foldl_experimenterStep_none (env : Env) (l : List PassPerson) (acc : Bool × List User) :
    l.foldl (experimenterStep env none) acc = acc := by
  induction l generalizing acc with
  | nil => rfl
  | cons a t ih => exact ih acc

/-- With a non-null PI the experimenter loop computes pi_found_in_experimenters as
an any-scan and builds one User per experimenter. -/
theorem foldl_experimenterStep_some (env : Env) (pi : PassPerson) :
    ∀ (l : List PassPerson) (acc : Bool × List User),
      l.foldl (experimenterStep env (some pi)) acc =
        (acc.1 || l.any (matchesPI pi), acc.2 ++ l.map (expUser env pi)) := by
  intro l
  induction l with
  | nil => intro acc; simp
  | cons a t ih =>
    intro acc
    rw [List.foldl_cons, ih]
    simp [experimenterStep, Bool.or_assoc]

/-- A successful find? certifies a matching element, hence any is true. -/
theorem any_of_findProposal_some {s : DBState} {key : String} {old : Proposal}
    (h : findProposal s key = some old) :
    s.proposals.any (fun pr => pr.proposal_id == key) = true := by
  unfold findProposal at h
  have hp := List.find?_some h
  have hm := List.mem_of_find?_eq_some h
  exact List.any_eq_true.mpr ⟨old, hm, hp⟩

/-- Upserting over an existing document applies the Set-operator updates to it. -/
theorem findProposal_upsert_existing {s : DBState} {key : String}
    (f : Proposal → Proposal) (ins : Proposal) {old : Proposal}
    (hf : ∀ pr, (f pr).proposal_id = pr.proposal_id)
    (h : findProposal s key = some old) :
    findProposal (upsertProposal s key f ins) key = some (f old) := by
  have hany := any_of_findProposal_some h
  have hg : ∀ a : Proposal,
      ((if a.proposal_id == key then f a else a).proposal_id == key)
        = (a.proposal_id == key) := by
    intro a
    by_cases hc : (a.proposal_id == key) = true
    · simp [hc, hf]
    · simp [hc]
  unfold findProposal at h
  have hpold := List.find?_some h
  unfold findProposal upsertProposal
  rw [if_pos hany, findq_map_pred_invariant _ _ hg, h]
  simp at hpold
  simp [hpold]

/-- Upserting a missing document inserts the on_insert record. -/
theorem findProposal_upsert_new {s : DBState} {key : String}
    (f : Proposal → Proposal) {ins : Proposal}
    (h : findProposal s key = none) (hins : ins.proposal_id = key) :
    findProposal (upsertProposal s key f ins) key = some ins := by
  have hany : ¬ (s.proposals.any (fun pr => pr.proposal_id == key) = true) := by
    intro hc
    obtain ⟨x, hx, hpx⟩ := List.any_eq_true.mp hc
    unfold findProposal at h
    exact (List.find?_eq_none.mp h x hx) hpx
  unfold findProposal upsertProposal
  rw [if_neg hany]
  unfold findProposal at h
  rw [findq_append_of_none _ _ _ h]
  simp [List.find?_cons, hins]

/-- The proposal upsert leaves every other document in the store untouched. -/
theorem findProposal_upsert_other {s : DBState} {key : String} (q : String)
    (f : Proposal → Proposal) (ins : Proposal) {old : Proposal}
    (hf : ∀ pr, (f pr).proposal_id = pr.proposal_id)
    (h : findProposal s key = some old) (hq : q ≠ key) :
    findProposal (upsertProposal s key f ins) q = findProposal s q := by
  have hany := any_of_findProposal_some h
  have hg : ∀ a : Proposal,
      ((if a.proposal_id == key then f a else a).proposal_id == q)
        = (a.proposal_id == q) := by
    intro a
    by_cases hc : (a.proposal_id == key) = true
    · simp [hc, hf]
    · simp [hc]
  unfold findProposal upsertProposal
  rw [if_pos hany, findq_map_pred_invariant _ _ hg]
  cases hfq : s.proposals.find? (fun pr => pr.proposal_id == q) with
  | none => rfl
  | some r =>
    have hrq : r.proposal_id = q := by
      have hp := List.find?_some hfq
      simpa using hp
    have hrk : (r.proposal_id == key) = false := by
      rw [hrq]
      exact beq_eq_false_iff_ne.mpr hq
    have hite : (if (r.proposal_id == key) = true then f r else r) = r := by
      rw [hrk]
      simp
    simp [hite]
    intro hck
    rw [hrq] at hck
    exact absurd hck hq

/-- proposalSetFields touches only the engine-owned fields: the key and the
cycles set are preserved. -/
theorem proposalSetFields_preserves (env : Env) (p : PassProposal) (pid : Nat)
    (ul : List User) (pr : Proposal) :
    (proposalSetFields env p pid ul pr).proposal_id = pr.proposal_id ∧
    (proposalSetFields env p pid ul pr).cycles = pr.cycles :=
  ⟨rfl, rfl⟩

/-- With a null PI the user block returns the empty list. -/
theorem resolveUserList_of_none {env : Env} {p : PassProposal} (hpi : p.PI = none) :
    resolveUserList env p = Except.ok [] := by
  unfold resolveUserList
  rw [hpi, foldl_experimenterStep_none]

/-- With a non-null PI the user block is the experimenter map, plus the
synthesized PI entry exactly when no experimenter matched; in the latter case the
unguarded username lookup decides between completion and HTTPStatusError. -/
theorem resolveUserList_of_some {env : Env} {p : PassProposal} {pi : PassPerson}
    (hpi : p.PI = some pi) :
    resolveUserList env p =
      (if p.Experimenters.any (matchesPI pi) then
        Except.ok (p.Experimenters.map (expUser env pi))
       else
        match env.usernameById pi.BNL_ID with
        | Except.error _ => Except.error PyError.httpStatusError
        | Except.ok uname =>
            Except.ok (p.Experimenters.map (expUser env pi) ++ [piEntry pi uname])) := by
  unfold resolveUserList
  rw [hpi, foldl_experimenterStep_some]
  simp

/-- When the fetch failed or the payload was malformed the reconciler receives
None and raises AttributeError at the first attribute access. -/
theorem sync_of_fetch_none {env : Env} (s : DBState) {pid : Nat}
    (h : get_proposal env pid = none) :
    synchronize_proposal_from_pass env s pid =
      { err := some PyError.attributeError, db := s } := by
  unfold synchronize_proposal_from_pass
  rw [h]

/-- When the user block raises, the exception propagates with the store unchanged. -/
theorem sync_of_userlist_error {env : Env} (s : DBState) {pid : Nat} {p : PassProposal}
    {e : PyError}
    (hfetch : env.rawProposal pid = RawFetch.ok p)
    (hul : resolveUserList env p = Except.error e) :
    synchronize_proposal_from_pass env s pid = { err := some e, db := s } := by
  unfold synchronize_proposal_from_pass get_proposal
  rw [hfetch]
  simp only [hul]

/-- When fetch and user block succeed, the run performs exactly the upsert. -/
theorem sync_of_ok {env : Env} (s : DBState) {pid : Nat} {p : PassProposal}
    {ul : List User}
    (hfetch : env.rawProposal pid = RawFetch.ok p)
    (hul : resolveUserList env p = Except.ok ul) :
    synchronize_proposal_from_pass env s pid =
      { err := none,
        db := upsertProposal s (toString pid)
                (proposalSetFields env p pid ul)
                (proposalOnInsert env p pid ul) } := by
  unfold synchronize_proposal_from_pass get_proposal
  rw [hfetch]
  simp only [hul]

/-- After a successful run, the stored record under the requested id carries the
computed user list and safety-form list (whether updated or freshly inserted). -/
theorem sync_ok_stored_users (env : Env) (s : DBState) (pid : Nat) (p : PassProposal)
    (ul : List User)
    (hfetch : env.rawProposal pid = RawFetch.ok p)
    (hid : p.Proposal_ID = pid)
    (hul : resolveUserList env p = Except.ok ul) :
    ∃ rec, findProposal (synchronize_proposal_from_pass env s pid).db (toString pid)
        = some rec ∧
      rec.users = ul ∧ rec.safs = resolveSafForms env pid := by
  rw [sync_of_ok s hfetch hul]
  cases hfind : findProposal s (toString pid) with
  | some old =>
    refine ⟨proposalSetFields env p pid ul old, ?_, rfl, rfl⟩
    exact findProposal_upsert_existing _ _ (fun pr => rfl) hfind
  | none =>
    refine ⟨proposalOnInsert env p pid ul, ?_, rfl, rfl⟩
    apply findProposal_upsert_new _ hfind
    show toString p.Proposal_ID = toString pid
    rw [hid]

/-- Claim C2: both facility-scoped sync workers fail on every invocation and never
write any record. Each passes a facility argument to a zero-parameter pass_service
fetch function (get_cycles, get_proposal_types), raising TypeError; while handling
it, the `except pass_service.PassException` clause raises AttributeError because
pass_service defines no such name. No invocation reaches the upsert loop, and the
store is returned unchanged. -/
theorem workers_always_fail (env : Env) (s : DBState) :
    worker_synchronize_cycles_from_pass env s =
      { err := some PyError.attributeError, db := s } ∧
    worker_synchronize_proposal_types_from_pass env s =
      { err := some PyError.attributeError, db := s } :=
  ⟨rfl, rfl⟩

/-- Claim C1 counterexample: for proposal 99 the designated PI (BNL id 123)
appears twice among the experimenters; synchronize_proposal_from_pass completes
and the stored user list carries two is_pi entries, not exactly one, refuting the
claim for the "one or more times" case. -/
theorem pi_unique_cex :
    (synchronize_proposal_from_pass envC1 db0 99).err = none ∧
    ((findProposal (synchronize_proposal_from_pass envC1 db0 99).db "99").map
        (fun rec => rec.users.countP (fun u => u.is_pi))) = some 2 ∧
    ¬ ((findProposal (synchronize_proposal_from_pass envC1 db0 99).db "99").map
        (fun rec => rec.users.countP (fun u => u.is_pi))) = some 1 :=
  ⟨by decide, by decide, by decide⟩

/-- Claim C1 (amended): after a completed synchronize_proposal_from_pass whose
remote record has a non-null PI, the number of stored is_pi entries equals
max 1 (number of experimenters whose external id casefold-matches the PI id):
exactly one whenever the PI appears at most once among the experimenters, but k
entries when it appears k >= 2 times. -/
theorem pi_count_after_sync (env : Env) (s : DBState) (pid : Nat) (p : PassProposal)
    (pi : PassPerson)
    (hfetch : env.rawProposal pid = RawFetch.ok p)
    (hid : p.Proposal_ID = pid)
    (hpi : p.PI = some pi)
    (hok : (synchronize_proposal_from_pass env s pid).err = none) :
    ((findProposal (synchronize_proposal_from_pass env s pid).db (toString pid)).map
        (fun rec => rec.users.countP (fun u => u.is_pi)))
      = some (max 1 (p.Experimenters.countP (matchesPI pi))) := by
  have hrul := @resolveUserList_of_some env p pi hpi
  cases hany : p.Experimenters.any (matchesPI pi) with
  | true =>
    rw [if_pos hany] at hrul
    obtain ⟨rec, hfind, husers, _⟩ := sync_ok_stored_users env s pid p _ hfetch hid hrul
    rw [hfind, Option.map_some', husers]
    have hcnt : (p.Experimenters.map (expUser env pi)).countP (fun u => u.is_pi)
        = p.Experimenters.countP (matchesPI pi) := by
      rw [List.countP_map]
      rfl
    rw [hcnt]
    obtain ⟨a, ha, hpa⟩ := List.any_eq_true.mp hany
    have hpos : 1 ≤ p.Experimenters.countP (matchesPI pi) :=
      List.countP_pos_iff.mpr ⟨a, ha, hpa⟩
    rw [Nat.max_eq_right hpos]
  | false =>
    have hnot : ¬ (p.Experimenters.any (matchesPI pi) = true) := by
      rw [hany]
      exact Bool.false_ne_true
    rw [if_neg hnot] at hrul
    cases hlk : env.usernameById pi.BNL_ID with
    | error e =>
      rw [hlk] at hrul
      rw [sync_of_userlist_error s hfetch hrul] at hok
      cases hok
    | ok uname =>
      rw [hlk] at hrul
      obtain ⟨rec, hfind, husers, _⟩ := sync_ok_stored_users env s pid p _ hfetch hid hrul
      rw [hfind, Option.map_some', husers]
      rw [List.countP_append, List.countP_map]
      have hzero : p.Experimenters.countP
          ((fun u => u.is_pi) ∘ expUser env pi) = 0 := by
        show p.Experimenters.countP (matchesPI pi) = 0
        rw [List.countP_eq_zero]
        exact List.any_eq_false.mp hany
      rw [hzero]
      have hz2 : p.Experimenters.countP (matchesPI pi) = 0 := hzero
      rw [hz2]
      simp [List.countP_cons, piEntry]

/-- Claim C1 (amended) witness: a concrete completed run with the PI duplicated
among experimenters, where the is_pi count is max 1 2 = 2. -/
theorem pi_count_after_sync_witness :
    (envC1.rawProposal 99 = RawFetch.ok propC1 ∧ propC1.Proposal_ID = 99 ∧
     propC1.PI = some alice ∧ (synchronize_proposal_from_pass envC1 db0 99).err = none) ∧
    ((findProposal (synchronize_proposal_from_pass envC1 db0 99).db "99").map
        (fun rec => rec.users.countP (fun u => u.is_pi)))
      = some (max 1 (propC1.Experimenters.countP (matchesPI alice))) :=
  ⟨⟨by decide, by decide, by decide, by decide⟩,
   pi_count_after_sync envC1 db0 99 propC1 alice (by decide) (by decide) (by decide)
     (by decide)⟩

/-- Claim C3: pass_service.get_proposal does NOT surface a typed error when the
remote record is absent or malformed: both failure branches log and return None,
and the reconciler then proceeds with None until the attribute access
pass_proposal.Resources raises AttributeError. The claim's typed-error contract
is what sync_service's dead `except pass_service.PassException` clause expects,
so the code, not the claim, is at fault. -/
theorem get_proposal_swallows_failures (env : Env) (s : DBState) (pid : Nat)
    (h : env.rawProposal pid = RawFetch.fetchError ∨
         env.rawProposal pid = RawFetch.invalid) :
    get_proposal env pid = none ∧
    synchronize_proposal_from_pass env s pid =
      { err := some PyError.attributeError, db := s } := by
  have hnone : get_proposal env pid = none := by
    unfold get_proposal
    cases h with
    | inl h => rw [h]
    | inr h => rw [h]
  exact ⟨hnone, sync_of_fetch_none s hnone⟩

/-- Claim C3 witness: a concrete absent remote record (transport failure). -/
theorem get_proposal_swallows_failures_witness :
    (baseEnv.rawProposal 5 = RawFetch.fetchError ∨
     baseEnv.rawProposal 5 = RawFetch.invalid) ∧
    (get_proposal baseEnv 5 = none ∧
     synchronize_proposal_from_pass baseEnv db0 5 =
       { err := some PyError.attributeError, db := db0 }) :=
  ⟨Or.inl (by decide),
   get_proposal_swallows_failures baseEnv db0 5 (Or.inl (by decide))⟩

/-- Claim C4 counterexample: proposal 7 has a PI absent from the experimenter
list, so the synthesized-PI branch runs; its username lookup is not guarded, the
HTTPStatusError propagates, and reconciliation of the proposal aborts with no
record stored — refuting "the lookup failure never aborts the proposal's
reconciliation". -/
theorem pi_lookup_failure_aborts_cex :
    synchronize_proposal_from_pass envC4 db0 7 =
      { err := some PyError.httpStatusError, db := db0 } := by
  decide

/-- Claim C4 (amended): for users built from the experimenter list a username
lookup failure degrades that user's username to null and reconciliation still
completes (here stated whenever the PI appears among the experimenters, so the
unguarded synthesized-PI lookup is skipped); for the synthesized PI entry the
lookup is unguarded and a failure aborts the reconciliation. -/
theorem experimenter_lookup_failure_degrades (env : Env) (s : DBState) (pid : Nat)
    (p : PassProposal) (pi : PassPerson)
    (hfetch : env.rawProposal pid = RawFetch.ok p)
    (hid : p.Proposal_ID = pid)
    (hpi : p.PI = some pi)
    (hfound : p.Experimenters.any (matchesPI pi) = true) :
    (synchronize_proposal_from_pass env s pid).err = none ∧
    ∃ rec, findProposal (synchronize_proposal_from_pass env s pid).db (toString pid)
        = some rec ∧
      List.Forall₂ (fun (u : PassPerson) (stored : User) =>
          stored.bnl_id = u.BNL_ID ∧ stored.username = softUsername env u.BNL_ID)
        p.Experimenters rec.users := by
  have hul : resolveUserList env p
      = Except.ok (p.Experimenters.map (expUser env pi)) := by
    rw [@resolveUserList_of_some env p pi hpi, if_pos hfound]
  obtain ⟨rec, hfind, husers, _⟩ := sync_ok_stored_users env s pid p _ hfetch hid hul
  constructor
  · rw [sync_of_ok s hfetch hul]
  · refine ⟨rec, hfind, ?_⟩
    rw [husers, List.forall₂_map_right_iff, List.forall₂_same]
    intro u hu
    exact ⟨rfl, rfl⟩

/-- Claim C4 (amended) witness: proposal 8 has PI alice among the experimenters
and the lookup for experimenter bob (BNL id 456) fails; the run completes and
bob's stored username is null. -/
theorem experimenter_lookup_failure_degrades_witness :
    (envC4w.rawProposal 8 = RawFetch.ok propC4w ∧ propC4w.Proposal_ID = 8 ∧
     propC4w.PI = some alice ∧ propC4w.Experimenters.any (matchesPI alice) = true ∧
     softUsername envC4w bob.BNL_ID = none) ∧
    ((synchronize_proposal_from_pass envC4w db0 8).err = none ∧
     ∃ rec, findProposal (synchronize_proposal_from_pass envC4w db0 8).db "8"
         = some rec ∧
       List.Forall₂ (fun (u : PassPerson) (stored : User) =>
           stored.bnl_id = u.BNL_ID ∧ stored.username = softUsername envC4w u.BNL_ID)
         propC4w.Experimenters rec.users) :=
  ⟨⟨by decide, by decide, by decide, by decide, by decide⟩,
   experimenter_lookup_failure_degrades envC4w db0 8 propC4w alice (by decide)
     (by decide) (by decide) (by decide)⟩

/-- Claim C6: when the remote PI field is null, every experimenter iteration of
the loop takes the warn-and-continue branch before building a User, the explicit
PI append is also skipped, and the run completes storing a proposal record with
an empty user list, however many experimenters the remote record lists. -/
theorem no_pi_skips_all_experimenters (env : Env) (s : DBState) (pid : Nat)
    (p : PassProposal)
    (hfetch : env.rawProposal pid = RawFetch.ok p)
    (hid : p.Proposal_ID = pid)
    (hpi : p.PI = none) :
    (synchronize_proposal_from_pass env s pid).err = none ∧
    ((findProposal (synchronize_proposal_from_pass env s pid).db (toString pid)).map
        (fun rec => rec.users)) = some [] := by
  have hul : resolveUserList env p = Except.ok [] := @resolveUserList_of_none env p hpi
  obtain ⟨rec, hfind, husers, _⟩ := sync_ok_stored_users env s pid p [] hfetch hid hul
  constructor
  · rw [sync_of_ok s hfetch hul]
  · rw [hfind, Option.map_some', husers]

/-- Claim C6 witness: proposal 42 has a null PI and two experimenters; the run
completes and the stored user list is empty. -/
theorem no_pi_skips_all_experimenters_witness :
    (envC6.rawProposal 42 = RawFetch.ok propC6 ∧ propC6.Proposal_ID = 42 ∧
     propC6.PI = none ∧ propC6.Experimenters.length = 2) ∧
    ((synchronize_proposal_from_pass envC6 db0 42).err = none ∧
     ((findProposal (synchronize_proposal_from_pass envC6 db0 42).db "42").map
         (fun rec => rec.users)) = some []) :=
  ⟨⟨by decide, by decide, by decide, by decide⟩,
   no_pi_skips_all_experimenters envC6 db0 42 propC6 (by decide) (by decide) (by decide)⟩

/-- Claim C5 counterexample: with a resolver that cannot resolve NO-SUCH, the
two-item batch [ptA, ptB] aborts at the first item: the error propagates, the
batch result is the raised exception, ptB is never upserted and no warning-skip
happens — refuting "that item is logged and skipped and the batch continues". -/
theorem proposal_type_unresolvable_facility_aborts_cex :
    syncProposalTypesLoop envC5 db0 [ptA, ptB] =
      { err := some (PyError.lookupError "Facility NO-SUCH not found"), db := db0 } := by
  decide

/-- Claim C5 (amended): during proposal-type reconciliation an item whose facility
cannot be resolved aborts the whole batch: the per-item loop has no error handler,
so the lookup failure propagates immediately and none of the remaining proposal
types are processed. -/
theorem proposal_type_unresolvable_facility_aborts (env : Env) (s : DBState)
    (pt : PassProposalType) (rest : List PassProposalType) (msg : String)
    (hfac : env.facilityByPassId pt.User_Facility_ID = Except.error msg) :
    syncProposalTypesLoop env s (pt :: rest) =
      { err := some (PyError.lookupError msg), db := s } := by
  unfold syncProposalTypesLoop
  rw [hfac]

/-- Claim C5 (amended) witness: the concrete batch aborts on its first item. -/
theorem proposal_type_unresolvable_facility_aborts_witness :
    (envC5.facilityByPassId ptA.User_Facility_ID
        = Except.error "Facility NO-SUCH not found") ∧
    syncProposalTypesLoop envC5 db0 [ptA, ptB] =
      { err := some (PyError.lookupError "Facility NO-SUCH not found"), db := db0 } :=
  ⟨by decide,
   proposal_type_unresolvable_facility_aborts envC5 db0 ptA [ptB]
     "Facility NO-SUCH not found" (by decide)⟩

/-- Claim C8: a completed proposal reconciliation touching an existing record
rewrites only title, data-session, type id, type description, instrument list,
safety-form list, user list and last-updated: the record keeps its key and its
cycles set unchanged, and every other stored proposal is untouched. -/
theorem proposal_upsert_preserves_cycles (env : Env) (s : DBState) (pid : Nat)
    (old : Proposal)
    (hexists : findProposal s (toString pid) = some old)
    (hok : (synchronize_proposal_from_pass env s pid).err = none) :
    ∃ rec, findProposal (synchronize_proposal_from_pass env s pid).db (toString pid)
        = some rec ∧
      rec.cycles = old.cycles ∧ rec.proposal_id = old.proposal_id ∧
      (∀ q, q ≠ toString pid →
        findProposal (synchronize_proposal_from_pass env s pid).db q
          = findProposal s q) := by
  cases hraw : env.rawProposal pid with
  | fetchError =>
    have hnone : get_proposal env pid = none := by
      unfold get_proposal
      rw [hraw]
    rw [sync_of_fetch_none s hnone] at hok
    cases hok
  | invalid =>
    have hnone : get_proposal env pid = none := by
      unfold get_proposal
      rw [hraw]
    rw [sync_of_fetch_none s hnone] at hok
    cases hok
  | ok p =>
    cases hrul : resolveUserList env p with
    | error e =>
      rw [sync_of_userlist_error s hraw hrul] at hok
      cases hok
    | ok ul =>
      rw [sync_of_ok s hraw hrul]
      refine ⟨proposalSetFields env p pid ul old, ?_, rfl, rfl, ?_⟩
      · exact findProposal_upsert_existing _ _ (fun pr => rfl) hexists
      · intro q hq
        exact findProposal_upsert_other q _ _ (fun pr => rfl) hexists hq

/-- Claim C8 witness: re-syncing stored proposal 314 keeps its cycles set
["2024-1"] and its key while the engine-owned fields are rewritten. -/
theorem proposal_upsert_preserves_cycles_witness :
    (findProposal db8 "314" = some storedProposal ∧
     (synchronize_proposal_from_pass envC8 db8 314).err = none) ∧
    (∃ rec, findProposal (synchronize_proposal_from_pass envC8 db8 314).db "314"
        = some rec ∧
      rec.cycles = storedProposal.cycles ∧ rec.proposal_id = storedProposal.proposal_id ∧
      (∀ q, q ≠ "314" →
        findProposal (synchronize_proposal_from_pass envC8 db8 314).db q
          = findProposal db8 q)) :=
  ⟨⟨by decide, by decide⟩,
   proposal_upsert_preserves_cycles envC8 db8 314 storedProposal (by decide) (by decide)⟩

/-- Claim C9: whenever the fetch and the user block succeed, the run completes and
stores one safety form per remote form, whose instrument list contains exactly the
names of the resolvable referenced resources: every unresolvable resource id is
silently omitted (possibly leaving the list empty) and is never fatal. -/
theorem saf_unresolvable_resource_skipped (env : Env) (s : DBState) (pid : Nat)
    (p : PassProposal) (ul : List User)
    (hfetch : env.rawProposal pid = RawFetch.ok p)
    (hid : p.Proposal_ID = pid)
    (hul : resolveUserList env p = Except.ok ul) :
    (synchronize_proposal_from_pass env s pid).err = none ∧
    ∃ rec, findProposal (synchronize_proposal_from_pass env s pid).db (toString pid)
        = some rec ∧
      List.Forall₂ (fun (saf : PassSaf) (form : SafetyForm) =>
          form.saf_id = toString saf.SAF_ID ∧ form.status = saf.Status ∧
          ∀ name, name ∈ form.instruments ↔
            ∃ r, r ∈ saf.Resources ∧ env.beamlineByPassId r.ID = some name)
        (env.passSafs pid) rec.safs := by
  obtain ⟨rec, hfind, _, hsafs⟩ := sync_ok_stored_users env s pid p ul hfetch hid hul
  refine ⟨by rw [sync_of_ok s hfetch hul], rec, hfind, ?_⟩
  rw [hsafs]
  unfold resolveSafForms
  rw [List.forall₂_map_right_iff, List.forall₂_same]
  intro saf hs
  refine ⟨rfl, rfl, ?_⟩
  intro name
  simp [List.mem_filterMap]

/-- Claim C9 witness: proposal 55 has one safety form referencing resources 1
(resolves to HXN) and 2 (unresolvable); the run completes and the stored form
lists exactly HXN. -/
theorem saf_unresolvable_resource_skipped_witness :
    (envC9.rawProposal 55 = RawFetch.ok propC9 ∧ propC9.Proposal_ID = 55 ∧
     resolveUserList envC9 propC9 = Except.ok [expUser envC9 alice alice] ∧
     envC9.beamlineByPassId 2 = none) ∧
    ((synchronize_proposal_from_pass envC9 db0 55).err = none ∧
     ∃ rec, findProposal (synchronize_proposal_from_pass envC9 db0 55).db "55"
         = some rec ∧
       List.Forall₂ (fun (saf : PassSaf) (form : SafetyForm) =>
           form.saf_id = toString saf.SAF_ID ∧ form.status = saf.Status ∧
           ∀ name, name ∈ form.instruments ↔
             ∃ r, r ∈ saf.Resources ∧ envC9.beamlineByPassId r.ID = some name)
         (envC9.passSafs 55) rec.safs) :=
  ⟨⟨by decide, by decide, by decide, by decide⟩,
   saf_unresolvable_resource_skipped envC9 db0 55 propC9 [expUser envC9 alice alice]
     (by decide) (by decide) (by decide)⟩

/-- Mapping a name-preserving, proposals-monotone transform over the cycle
collection can only grow each cycle's proposal set. -/
theorem cycles_map_mono (s : DBState) (g : Cycle → Cycle)
    (hname : ∀ cy, (g cy).name = cy.name)
    (hprop : ∀ cy, cy.proposals ⊆ (g cy).proposals) (n : String) :
    cycleProposalsOf s n ⊆ cycleProposalsOf { s with cycles := s.cycles.map g } n := by
  unfold cycleProposalsOf findCycle
  have hg : ∀ a : Cycle, ((g a).name == n) = (a.name == n) := by
    intro a
    rw [hname]
  rw [findq_map_pred_invariant _ _ hg]
  cases hf : s.cycles.find? (fun cy => cy.name == n) with
  | none => exact fun x hx => hx
  | some cy => exact hprop cy

/-- Appending a new document never shrinks any cycle's proposal set. -/
theorem cycleProposalsOf_append (s : DBState) (nc : Cycle) (n : String) :
    cycleProposalsOf s n ⊆ cycleProposalsOf { s with cycles := s.cycles ++ [nc] } n := by
  unfold cycleProposalsOf findCycle
  cases hf : s.cycles.find? (fun cy => cy.name == n) with
  | none => exact List.nil_subset _
  | some cy =>
    have h2 : (s.cycles ++ [nc]).find? (fun cy => cy.name == n) = some cy :=
      findq_append_of_some _ _ _ _ hf
    show cy.proposals ⊆
      (match (s.cycles ++ [nc]).find? (fun cy => cy.name == n) with
       | some cy => cy.proposals
       | none => [])
    rw [h2]
    exact fun x hx => hx

/-- The cycle upsert never shrinks any cycle's proposal set: the Set-operator
branch leaves `proposals` untouched, the insert branch starts from the empty set. -/
theorem cycleProposalsOf_upsertCycle (s : DBState) (pc : PassCycle) (fid : String)
    (now : Nat) (n : String) :
    cycleProposalsOf s n ⊆ cycleProposalsOf (upsertCycle s pc fid now) n := by
  unfold upsertCycle
  by_cases hany : (s.cycles.any (fun cy => cy.name == pc.Name)) = true
  · rw [if_pos hany]
    apply cycles_map_mono
    · intro cy
      by_cases h : (cy.name == pc.Name) = true
      · rw [if_pos h]
      · rw [if_neg h]
    · intro cy
      by_cases h : (cy.name == pc.Name) = true
      · rw [if_pos h]
        exact fun x hx => hx
      · rw [if_neg h]
        exact fun x hx => hx
  · rw [if_neg hany]
    exact cycleProposalsOf_append s _ n

/-- The AddToSet write on a cycle's proposal set only grows it. -/
theorem cycleProposalsOf_addProposalToCycle (s : DBState) (cn pidStr : String)
    (now : Nat) (n : String) :
    cycleProposalsOf s n ⊆ cycleProposalsOf (addProposalToCycle s cn pidStr now) n := by
  unfold addProposalToCycle
  apply cycles_map_mono
  · intro cy
    by_cases h : (cy.name == cn) = true
    · rw [if_pos h]
    · rw [if_neg h]
  · intro cy
    by_cases h : (cy.name == cn) = true
    · rw [if_pos h]
      exact subset_addToSet cy.proposals pidStr
    · rw [if_neg h]
      exact fun x hx => hx

/-- Folding the allocation AddToSet writes only grows each cycle's proposal set. -/
theorem cycleProposalsOf_foldl_alloc (cn : String) (now : Nat) :
    ∀ (pids : List Nat) (s : DBState) (n : String),
      cycleProposalsOf s n ⊆
        cycleProposalsOf
          (pids.foldl (fun st pid => addProposalToCycle st cn (toString pid) now) s) n := by
  intro pids
  induction pids with
  | nil => intro s n; exact fun x hx => hx
  | cons a t ih =>
    intro s n x hx
    exact ih _ n (cycleProposalsOf_addProposalToCycle s cn (toString a) now n hx)

/-- The per-cycle sync loop only grows each cycle's proposal set, however far it
gets before raising. -/
theorem cycleProposalsOf_syncCyclesLoop (env : Env) :
    ∀ (pcl : List PassCycle) (s : DBState) (n : String),
      cycleProposalsOf s n ⊆ cycleProposalsOf (syncCyclesLoop env s pcl).db n := by
  intro pcl
  induction pcl with
  | nil => intro s n; exact fun x hx => hx
  | cons pc rest ih =>
    intro s n
    unfold syncCyclesLoop
    cases hfac : env.facilityByPassId pc.User_Facility_ID with
    | error msg => exact fun x hx => hx
    | ok fac =>
      intro x hx
      exact cycleProposalsOf_upsertCycle s pc fac.facility_id env.now n hx

/-- find? after a linking write is the mapped find? of the original store. -/
theorem findProposal_linkApply (env : Env) (c : String) (s : DBState) (pid : Nat)
    (key : String) :
    findProposal (linkApply env c s pid) key =
      (findProposal s key).map (fun pr =>
        if pr.proposal_id == toString pid then
          { pr with cycles := addToSet pr.cycles c, last_updated := env.now }
        else pr) := by
  unfold linkApply findProposal
  apply findq_map_pred_invariant
  intro a
  by_cases hc : (a.proposal_id == toString pid) = true
  · rw [if_pos hc]
  · rw [if_neg hc]

/-- One linking write only grows each proposal's cycle set. -/
theorem proposalCyclesOf_linkApply (env : Env) (c : String) (s : DBState) (pid : Nat)
    (key : String) :
    proposalCyclesOf s key ⊆ proposalCyclesOf (linkApply env c s pid) key := by
  unfold proposalCyclesOf
  rw [findProposal_linkApply]
  cases hf : findProposal s key with
  | none => exact fun x hx => hx
  | some pr =>
    show pr.cycles ⊆
      (if (pr.proposal_id == toString pid) = true then
        { pr with cycles := addToSet pr.cycles c, last_updated := env.now }
      else pr).cycles
    by_cases hc : (pr.proposal_id == toString pid) = true
    · rw [if_pos hc]
      exact subset_addToSet pr.cycles c
    · rw [if_neg hc]
      exact fun x hx => hx

/-- One linking iteration only grows each proposal's cycle set. -/
theorem proposalCyclesOf_linkCycleStep (env : Env) (c : String)
    (acc : DBState × List String) (pid : Nat) (key : String) :
    proposalCyclesOf acc.1 key ⊆ proposalCyclesOf (linkCycleStep env c acc pid).1 key := by
  unfold linkCycleStep
  cases hpb : proposal_by_id acc.1 pid with
  | error msg => exact fun x hx => hx
  | ok pr => exact proposalCyclesOf_linkApply env c acc.1 pid key

/-- The linking fold only grows each proposal's cycle set. -/
theorem proposalCyclesOf_linkfold (env : Env) (c : String) :
    ∀ (pids : List Nat) (acc : DBState × List String) (key : String),
      proposalCyclesOf acc.1 key ⊆
        proposalCyclesOf ((pids.foldl (linkCycleStep env c) acc)).1 key := by
  intro pids
  induction pids with
  | nil => intro acc key; exact fun x hx => hx
  | cons a t ih =>
    intro acc key x hx
    exact ih (linkCycleStep env c acc a) key (proposalCyclesOf_linkCycleStep env c acc a key hx)

/-- A proposal missing from the store stays missing across linking iterations. -/
theorem linkCycleStep_find_none (env : Env) (c : String) (acc : DBState × List String)
    (pid : Nat) (key : String) (h : findProposal acc.1 key = none) :
    findProposal (linkCycleStep env c acc pid).1 key = none := by
  unfold linkCycleStep
  cases hpb : proposal_by_id acc.1 pid with
  | error msg => exact h
  | ok pr =>
    show findProposal (linkApply env c acc.1 pid) key = none
    rw [findProposal_linkApply, h]
    rfl

/-- The linking fold only ever appends to the warning log. -/
theorem linkfold_log_extends (env : Env) (c : String) :
    ∀ (pids : List Nat) (acc : DBState × List String),
      ∃ tail, (pids.foldl (linkCycleStep env c) acc).2 = acc.2 ++ tail := by
  intro pids
  induction pids with
  | nil => intro acc; exact ⟨[], by simp⟩
  | cons a t ih =>
    intro acc
    rw [List.foldl_cons]
    obtain ⟨tail, htail⟩ := ih (linkCycleStep env c acc a)
    cases hpb : proposal_by_id acc.1 a with
    | ok pr =>
      refine ⟨tail, ?_⟩
      rw [htail]
      unfold linkCycleStep
      rw [hpb]
    | error msg =>
      refine ⟨msg :: tail, ?_⟩
      rw [htail]
      unfold linkCycleStep
      rw [hpb]
      simp

/-- A missing proposal id in the cycle's list leaves its LookupError message in
the warning log of the finished fold. -/
theorem linkfold_warns (env : Env) (c : String) :
    ∀ (pids : List Nat) (acc : DBState × List String) (pid : Nat),
      pid ∈ pids → findProposal acc.1 (toString pid) = none →
      ("Proposal " ++ toString pid ++ " not found")
        ∈ (pids.foldl (linkCycleStep env c) acc).2 := by
  intro pids
  induction pids with
  | nil => intro acc pid hmem; cases hmem
  | cons a t ih =>
    intro acc pid hmem hmiss
    rw [List.foldl_cons]
    rcases List.mem_cons.mp hmem with heq | hmem'
    · rw [heq] at hmiss ⊢
      have hpb : proposal_by_id acc.1 a
          = Except.error ("Proposal " ++ toString a ++ " not found") := by
        unfold proposal_by_id
        rw [hmiss]
      have hstep : linkCycleStep env c acc a
          = (acc.1, acc.2 ++ ["Proposal " ++ toString a ++ " not found"]) := by
        unfold linkCycleStep
        rw [hpb]
      rw [hstep]
      obtain ⟨tail, htail⟩ := linkfold_log_extends env c t
        (acc.1, acc.2 ++ ["Proposal " ++ toString a ++ " not found"])
      rw [htail]
      simp
    · apply ih (linkCycleStep env c acc a) pid hmem'
      unfold linkCycleStep
      cases hpb : proposal_by_id acc.1 a with
      | error msg => exact hmiss
      | ok pr =>
        show findProposal (linkApply env c acc.1 a) (toString pid) = none
        rw [findProposal_linkApply, hmiss]
        rfl

/-- Characterization of one record across the whole linking fold: a stored
proposal ends with the cycle AddToSet-ed exactly when its id occurs in the list,
and is untouched otherwise. -/
theorem linkfold_find_some (env : Env) (c : String) :
    ∀ (pids : List Nat) (acc : DBState × List String) (key : String) (old : Proposal),
      findProposal acc.1 key = some old →
      findProposal ((pids.foldl (linkCycleStep env c) acc).1) key =
        some (if pids.any (fun pid => toString pid == key) then
                { old with cycles := addToSet old.cycles c, last_updated := env.now }
              else old) := by
  intro pids
  induction pids with
  | nil =>
    intro acc key old h
    simpa using h
  | cons a t ih =>
    intro acc key old h
    rw [List.foldl_cons]
    have hpid : (old.proposal_id == key) = true := by
      unfold findProposal at h
      have hp := List.find?_some h
      exact hp
    by_cases hak : (toString a == key) = true
    · have hkeyeq : toString a = key := by simpa using hak
      have hpb : proposal_by_id acc.1 a = Except.ok old := by
        unfold proposal_by_id
        rw [hkeyeq, h]
      have hstepfind : findProposal (linkCycleStep env c acc a).1 key
          = some { old with cycles := addToSet old.cycles c, last_updated := env.now } := by
        have hstep1 : (linkCycleStep env c acc a).1 = linkApply env c acc.1 a := by
          unfold linkCycleStep
          rw [hpb]
        rw [hstep1, findProposal_linkApply, h, Option.map_some']
        have hmatch : (old.proposal_id == toString a) = true := by
          rw [hkeyeq]
          exact hpid
        rw [if_pos hmatch]
      rw [ih (linkCycleStep env c acc a) key _ hstepfind]
      have hanytrue : ((a :: t).any (fun pid => toString pid == key)) = true := by
        rw [List.any_cons, hak]
        simp
      rw [if_pos hanytrue]
      by_cases hta : (t.any (fun pid => toString pid == key)) = true
      · rw [if_pos hta]
        have hidem : addToSet (addToSet old.cycles c) c = addToSet old.cycles c :=
          addToSet_of_mem (mem_addToSet_self old.cycles c)
        show some ({ old with
            cycles := addToSet (addToSet old.cycles c) c,
            last_updated := env.now })
          = some ({ old with cycles := addToSet old.cycles c, last_updated := env.now })
        rw [hidem]
      · rw [if_neg hta]
    · have hstepfind : findProposal (linkCycleStep env c acc a).1 key = some old := by
        unfold linkCycleStep
        cases hpb : proposal_by_id acc.1 a with
        | error msg => exact h
        | ok pr =>
          show findProposal (linkApply env c acc.1 a) key = some old
          rw [findProposal_linkApply, h, Option.map_some']
          have hkeq : old.proposal_id = key := by simpa using hpid
          have hne : (old.proposal_id == toString a) = false := by
            rw [hkeq]
            cases hbeq : (key == toString a) with
            | false => rfl
            | true =>
              exfalso
              apply hak
              have hk : key = toString a := by simpa using hbeq
              rw [hk]
              simp
          have hnot : ¬ ((old.proposal_id == toString a) = true) := by
            rw [hne]
            exact Bool.false_ne_true
          rw [if_neg hnot]
      rw [ih (linkCycleStep env c acc a) key old hstepfind]
      have hanyeq : ((a :: t).any (fun pid => toString pid == key))
          = (t.any (fun pid => toString pid == key)) := by
        rw [List.any_cons]
        have hfa : (toString a == key) = false := by
          cases hb : (toString a == key) with
          | false => rfl
          | true => exact absurd hb hak
        rw [hfa]
        simp
      rw [hanyeq]

/-- Claim C7: across sync operations Cycle.proposals and Proposal.cycles only
grow. The cycle-sync loop preserves each cycle's proposal set through the upsert
(untouched by the Set operator, empty on insert) and only AddToSets allocation
entries; update_proposals_with_cycle only AddToSets the cycle name onto proposal
cycle sets; the full cycles worker (which in fact raises before writing) also
never removes an entry. No removal path exists, even when the remote source
reports fewer items than before. -/
theorem cycle_proposal_sets_only_grow (env : Env) (s : DBState) :
    (∀ pcl n, cycleProposalsOf s n ⊆ cycleProposalsOf (syncCyclesLoop env s pcl).db n) ∧
    (∀ c key, proposalCyclesOf s key ⊆
        proposalCyclesOf (update_proposals_with_cycle env s c).1 key) ∧
    (∀ n, cycleProposalsOf s n ⊆
        cycleProposalsOf (worker_synchronize_cycles_from_pass env s).db n) := by
  refine ⟨fun pcl n => cycleProposalsOf_syncCyclesLoop env pcl s n,
          fun c key => ?_,
          fun n => fun x hx => hx⟩
  exact proposalCyclesOf_linkfold env c (env.proposalsForCycle c) (s, []) key

/-- Claim C10: when linking a cycle, every listed proposal id missing from the
store leaves a LookupError warning in the log while linking continues: the
function returns normally (the catch covers its only exception) and every listed
proposal that is present ends with the cycle in its cycles set. -/
theorem linker_missing_proposal_warns_and_continues (env : Env) (s : DBState)
    (c : String) (pid : Nat)
    (hmem : pid ∈ env.proposalsForCycle c)
    (hmiss : findProposal s (toString pid) = none) :
    ("Proposal " ++ toString pid ++ " not found")
      ∈ (update_proposals_with_cycle env s c).2 ∧
    (∀ q old, q ∈ env.proposalsForCycle c → findProposal s (toString q) = some old →
      ∃ rec, findProposal (update_proposals_with_cycle env s c).1 (toString q)
          = some rec ∧ c ∈ rec.cycles) := by
  constructor
  · exact linkfold_warns env c (env.proposalsForCycle c) (s, []) pid hmem hmiss
  · intro q old hq hold
    unfold update_proposals_with_cycle
    rw [linkfold_find_some env c (env.proposalsForCycle c) (s, []) (toString q) old hold]
    have hqany : ((env.proposalsForCycle c).any (fun pid => toString pid == toString q))
        = true := by
      apply List.any_eq_true.mpr
      exact ⟨q, hq, by simp⟩
    rw [if_pos hqany]
    exact ⟨_, rfl, mem_addToSet_self old.cycles c⟩

/-- Claim C10 witness: cycle 2024-1 lists ids 1 (missing) and 2 (present); the
warning for id 1 is recorded and proposal 2 ends linked to the cycle. -/
theorem linker_missing_proposal_warns_and_continues_witness :
    (1 ∈ envC10.proposalsForCycle "2024-1" ∧
     findProposal db10 (toString (1 : Nat)) = none) ∧
    (("Proposal " ++ toString (1 : Nat) ++ " not found")
        ∈ (update_proposals_with_cycle envC10 db10 "2024-1").2 ∧
     (∀ q old, q ∈ envC10.proposalsForCycle "2024-1" →
        findProposal db10 (toString q) = some old →
        ∃ rec, findProposal (update_proposals_with_cycle envC10 db10 "2024-1").1 (toString q)
            = some rec ∧ "2024-1" ∈ rec.cycles)) :=
  ⟨⟨by decide, by decide⟩,
   linker_missing_proposal_warns_and_continues envC10 db10 "2024-1" 1
     (by decide) (by decide)⟩

end Nsls2api
